/-
Verification of the startup/shutdown orchestration layer of hnsd
(src/daemon.c): option parsing (`parse_arg`), option defaults
(`hsk_options_init`), and the `main` orchestration with its goto-based
teardown block.

Shallow embedding notes:
- `argv` tokenisation by getopt_long is abstracted: the input to
  `parse_arg` is the list of recognised option events (flag plus its
  argument string), together with a flag saying whether positional
  arguments remain after option parsing (the C `optind < argc` test).
- Helper routines that live outside daemon.c (utils.c, hsk.h) are
  modelled from the spec where marked.
- `help(r)` prints the usage text and calls `exit(r)`; it is modelled by
  the `ParseExit` outcomes `help0` (exit status 0) and `usage1`
  (usage printed, exit status 1).
- `main` is modelled as a function from the parsed options and an
  environment giving the outcome of every external call (allocation
  results, open return codes, the event-loop return code) to the process
  exit code plus the trace of external calls it performs, in order.
-/

import Mathlib

/-- A network address: host and port. In the C source this is a
`struct sockaddr`; only host and port are relevant at this layer. -/
structure SockAddr where
  host : String
  port : Nat
deriving DecidableEq

/-- Splits a character list at the first occurrence of the character
`@`; returns `none` when no `@` occurs. -/
def splitAmp : List Char → Option (List Char × List Char)
  | [] => none
  | c :: rest =>
    if c = '@' then some ([], rest)
    else
      match splitAmp rest with
      | none => none
      | some (h, p) => some (c :: h, p)

/-- Decimal value of a digit list (most significant first). -/
def decVal (cs : List Char) : Nat :=
  cs.foldl (fun a c => 10 * a + (c.toNat - 48)) 0

/-- Characters that may appear in an IPv4/IPv6 host literal. -/
def isHostChar (c : Char) : Bool :=
  c.isDigit || c = '.' || c = ':' ||
  (97 ≤ c.toNat && c.toNat ≤ 102) || (65 ≤ c.toNat && c.toNat ≤ 70)

/-- Host part validity: nonempty, made of IP-literal characters. -/
def validHostChars (cs : List Char) : Bool :=
  !cs.isEmpty && cs.all isHostChar

/-- Modelled from the spec: `hsk_sa_from_string` (utils.c, not in
src/). Parses `host` or `host@port`; when `@port` is absent the
caller-supplied default port is used; parse failure yields `none`.
Exact host validation (inet_pton) is abstracted to a character-level
check; no claim depends on which hosts are valid. -/
def hsk_sa_from_string (s : String) (defaultPort : Nat) : Option SockAddr :=
  match splitAmp s.data with
  | none =>
    if validHostChars s.data then some ⟨s, defaultPort⟩ else none
  | some (h, p) =>
    if validHostChars h && !p.isEmpty && p.all Char.isDigit && decVal p ≤ 65535
    then some ⟨String.mk h, decVal p⟩
    else none

/-- Modelled from the spec: `hsk_sa_copy` (utils.c, not in src/):
copies the full source address (host and port). -/
def hsk_sa_copy (src : SockAddr) : SockAddr := src

/-- Value of a hexadecimal digit, `none` for a non-hex character. -/
def hexVal (c : Char) : Option Nat :=
  if 48 ≤ c.toNat && c.toNat ≤ 57 then some (c.toNat - 48)
  else if 97 ≤ c.toNat && c.toNat ≤ 102 then some (c.toNat - 87)
  else if 65 ≤ c.toNat && c.toNat ≤ 70 then some (c.toNat - 55)
  else none

/-- Byte-pairwise hex decoding of a character list; fails on a non-hex
character or an odd length. -/
def hexBytes : List Char → Option (List Nat)
  | [] => some []
  | [_] => none
  | c1 :: c2 :: rest =>
    match hexVal c1, hexVal c2, hexBytes rest with
    | some hi, some lo, some bs => some ((16 * hi + lo) :: bs)
    | _, _, _ => none

/-- Modelled from the spec: `hsk_hex_decode` (utils.c, not in src/):
decodes a hex string into bytes, failing on invalid input. -/
def hsk_hex_decode (s : String) : Option (List Nat) :=
  hexBytes s.data

/-- Modelled from the spec: `hsk_hex_decode_size` (utils.c, not in
src/): the number of bytes the string would decode to, `length / 2`. -/
def hsk_hex_decode_size (s : String) : Nat :=
  s.length / 2

/-- C `isspace` characters skipped by `atoi`. -/
def isSpaceC (c : Char) : Bool :=
  c = ' ' || c = Char.ofNat 9 || c = Char.ofNat 10 ||
  c = Char.ofNat 11 || c = Char.ofNat 12 || c = Char.ofNat 13

/-- Accumulating digit scan used by `atoi`: consumes leading decimal
digits, stops at the first non-digit. -/
def atoiDigits : List Char → Nat → Nat
  | [], acc => acc
  | c :: rest, acc =>
    if c.isDigit then atoiDigits rest (10 * acc + (c.toNat - 48)) else acc

/-- C library `atoi` (used at daemon.c:151): skips leading whitespace,
reads an optional sign, then the longest run of leading decimal digits;
returns 0 when no digits are found. Overflow of the C `int` is
undefined behaviour in the source and is modelled as exact integer
arithmetic. -/
def atoiChars : List Char → Int
  | [] => 0
  | c :: rest =>
    if isSpaceC c then atoiChars rest
    else if c = '-' then -(atoiDigits rest 0 : Int)
    else if c = '+' then (atoiDigits rest 0 : Int)
    else if c.isDigit then (atoiDigits rest (c.toNat - 48) : Int)
    else 0

/-- C library `atoi` on a string. -/
def atoi (s : String) : Int :=
  atoiChars s.data

/-- Modelled from the spec: compiled-in defaults from hsk.h (not in
src/). The claims do not depend on the concrete values. -/
def HSK_NS_IP : String := "127.0.0.1"

/-- Modelled from the spec: compiled-in default NS port (hsk.h). -/
def HSK_NS_PORT : Nat := 5369

/-- Modelled from the spec: compiled-in default RS host (hsk.h). -/
def HSK_RS_IP : String := "127.0.0.1"

/-- Modelled from the spec: compiled-in default RS port (hsk.h). -/
def HSK_RS_PORT : Nat := 53

/-- Modelled from the spec: compiled-in resolver-address placeholder
used as the initial `ns_ip` (hsk.h). -/
def HSK_RS_A : String := "127.0.0.1"

/-- Modelled from the spec: compiled-in default pool size (hsk.h). -/
def HSK_POOL_SIZE : Int := 8

/-- Modelled from the spec: success code (hsk.h); zero. -/
def HSK_SUCCESS : Int := 0

/-- Modelled from the spec: out-of-memory failure code (hsk.h);
nonzero, distinct from the generic failure code. -/
def HSK_ENOMEM : Int := 1

/-- Modelled from the spec: generic failure code (hsk.h); nonzero. -/
def HSK_EFAILURE : Int := 2

/-- Which buffer the `config` (or `rs_config`) pointer of
`hsk_options_t` points to: `NULL`, the `_config` buffer, or the
`_rs_config` buffer. -/
inductive ConfigPtr
  | null
  | cfgBuf
  | rsCfgBuf
deriving DecidableEq

/-- The `hsk_options_t` record of daemon.c. Pointer fields that can
only point into the record's own buffers (`config`, `rs_config`) are
modelled by `ConfigPtr`; `identity_key` is `NULL` or points at
`_identity_key`, modelled as a Bool. -/
structure HskOptions where
  _config : String
  config : ConfigPtr
  ns_host : SockAddr
  rs_host : SockAddr
  ns_ip : SockAddr
  _rs_config : String
  rs_config : ConfigPtr
  _identity_key : List Nat
  identity_key : Bool
  seeds : Option String
  pool_size : Int
deriving DecidableEq

/-- The string the `config` pointer dereferences to, if non-NULL. -/
def configVal (o : HskOptions) : Option String :=
  match o.config with
  | ConfigPtr.null => none
  | ConfigPtr.cfgBuf => some o._config
  | ConfigPtr.rsCfgBuf => some o._rs_config

/-- `hsk_options_init` (daemon.c:40-56): zeroes the buffers, points the
address fields at their storage, installs the compiled-in default
addresses and pool size, and leaves `config`, `rs_config`,
`identity_key` and `seeds` NULL. -/
def hsk_options_init : HskOptions :=
  { _config := ""
    config := ConfigPtr.null
    ns_host := (hsk_sa_from_string HSK_NS_IP HSK_NS_PORT).getD ⟨HSK_NS_IP, HSK_NS_PORT⟩
    rs_host := (hsk_sa_from_string HSK_RS_IP HSK_RS_PORT).getD ⟨HSK_RS_IP, HSK_RS_PORT⟩
    ns_ip := (hsk_sa_from_string HSK_RS_A 0).getD ⟨HSK_RS_A, 0⟩
    _rs_config := ""
    rs_config := ConfigPtr.null
    _identity_key := List.replicate 32 0
    identity_key := false
    seeds := none
    pool_size := HSK_POOL_SIZE }

/-- One recognised command-line option event, as produced by
getopt_long over daemon.c's option table: the flag together with its
argument string. `unknown` is getopt_long's `?` result. -/
inductive Arg
  | config (s : String)
  | nsHost (s : String)
  | rsHost (s : String)
  | nsIp (s : String)
  | rsConfig (s : String)
  | poolSize (s : String)
  | identityKey (s : String)
  | seeds (s : String)
  | help
  | unknown
deriving DecidableEq

/-- How `parse_arg` exits the process early: `help0` is `help(0)`
(usage printed, exit status 0); `usage1` is `help(1)` (usage printed,
exit status 1). -/
inductive ParseExit
  | help0
  | usage1
deriving DecidableEq

/-- One iteration of the getopt loop of `parse_arg` (daemon.c:125-174):
the switch over the option character. State is the options record plus
the `has_ip` local. The `strdup` failure path of the seeds case (an
out-of-memory exit) is modelled as the allocation succeeding. -/
def parse_step : HskOptions × Bool → Arg → Except ParseExit (HskOptions × Bool)
  | (_, _), Arg.help => Except.error ParseExit.help0
  | (o, hip), Arg.config s =>
    Except.ok ({ o with _config := s, config := ConfigPtr.cfgBuf }, hip)
  | (o, hip), Arg.nsHost s =>
    match hsk_sa_from_string s HSK_NS_PORT with
    | none => Except.error ParseExit.usage1
    | some sa => Except.ok ({ o with ns_host := sa }, hip)
  | (o, hip), Arg.rsHost s =>
    match hsk_sa_from_string s HSK_RS_PORT with
    | none => Except.error ParseExit.usage1
    | some sa => Except.ok ({ o with rs_host := sa }, hip)
  | (o, _), Arg.nsIp s =>
    match hsk_sa_from_string s 0 with
    | none => Except.error ParseExit.usage1
    | some sa => Except.ok ({ o with ns_ip := sa }, true)
  | (o, hip), Arg.rsConfig s =>
    Except.ok ({ o with _rs_config := s, config := ConfigPtr.rsCfgBuf }, hip)
  | (o, hip), Arg.poolSize s =>
    let size := atoi s
    if size ≤ 0 ∨ 1000 < size then Except.error ParseExit.usage1
    else Except.ok ({ o with pool_size := size }, hip)
  | (o, hip), Arg.identityKey s =>
    if hsk_hex_decode_size s ≠ 32 then Except.error ParseExit.usage1
    else
      match hsk_hex_decode s with
      | none => Except.error ParseExit.usage1
      | some k => Except.ok ({ o with _identity_key := k, identity_key := true }, hip)
  | (o, hip), Arg.seeds s => Except.ok ({ o with seeds := some s }, hip)
  | (_, _), Arg.unknown => Except.error ParseExit.usage1

/-- The getopt loop of `parse_arg` (daemon.c:119-175), processing the
option events in order until none remain or an option exits. -/
def parse_loop : List Arg → HskOptions × Bool → Except ParseExit (HskOptions × Bool)
  | [], st => Except.ok st
  | a :: rest, st =>
    match parse_step st a with
    | Except.error e => Except.error e
    | Except.ok st1 => parse_loop rest st1

/-- `parse_arg` (daemon.c:98-182): runs the option loop from the
initialised options with `has_ip = false`; a remaining positional
argument is `help(1)`; finally, when no `-i` was seen, copies `ns_host`
into `ns_ip`. -/
def parse_arg (args : List Arg) (extraPositional : Bool) : Except ParseExit HskOptions :=
  match parse_loop args (hsk_options_init, false) with
  | Except.error e => Except.error e
  | Except.ok (o, hip) =>
    if extraPositional then Except.error ParseExit.usage1
    else Except.ok (if hip then o else { o with ns_ip := hsk_sa_copy o.ns_host })

/-- The argument of an option event when it is `-i`/`--ns-ip`. -/
def nsIpOf : Arg → Option String
  | Arg.nsIp s => some s
  | _ => none

/-- The argument of an option event when it is one of the two
config-path flags `-c`/`--config` and `-u`/`--rs-config`. -/
def cfgOf : Arg → Option String
  | Arg.config s => some s
  | Arg.rsConfig s => some s
  | _ => none

/-- The argument string of the last `-i`/`--ns-ip` option in the list,
if any. -/
def lastNsIp : List Arg → Option String
  | [] => none
  | a :: rest => (lastNsIp rest).or (nsIpOf a)

/-- The argument string of the last `-c`/`--config` or
`-u`/`--rs-config` option in the list, if any. -/
def lastCfg : List Arg → Option String
  | [] => none
  | a :: rest => (lastCfg rest).or (cfgOf a)

/-- Whether an option event is `-i`/`--ns-ip`. -/
def isNsIpArg : Arg → Bool
  | Arg.nsIp _ => true
  | _ => false

/-- Outcome of every external call `main` (daemon.c:188-288) makes:
whether `uv_default_loop` and the three allocators return non-NULL, and
the return codes of the three open calls and of `uv_run`. -/
structure MainEnv where
  loop_ok : Bool
  pool_alloc_ok : Bool
  ns_alloc_ok : Bool
  rs_alloc_ok : Bool
  pool_open_rc : Int
  ns_open_rc : Int
  rs_open_rc : Int
  uv_run_rc : Int
deriving DecidableEq

/-- One external call performed by `main`, in trace order. Allocation
and open events record the address argument where one is passed; every
allocator also receives the (single) event loop, which is left
implicit. -/
inductive Ev
  | poolAlloc
  | poolSetSize (n : Int)
  | nsAlloc
  | nsSetIp (a : SockAddr)
  | nsSetKey
  | rsAlloc (a : SockAddr)
  | rsSetKey
  | poolOpen
  | nsOpen (a : SockAddr)
  | rsOpen (a : SockAddr)
  | run
  | rsDestroy
  | nsDestroy
  | poolDestroy
  | loopClose
deriving DecidableEq

/-- Whether an event is one of the four teardown calls. -/
def isDestroy : Ev → Bool
  | Ev.rsDestroy | Ev.nsDestroy | Ev.poolDestroy | Ev.loopClose => true
  | _ => false

/-- The four handle slots of `main` (daemon.c:196-199): `true` when the
slot holds a successfully acquired handle, `false` when it is NULL. -/
structure Handles where
  loop : Bool
  pool : Bool
  ns : Bool
  rs : Bool
deriving DecidableEq

/-- The `done:` block of `main` (daemon.c:274-285): destroy `rs`, then
`ns`, then `pool`, then close the loop, each only if its slot is
non-NULL. -/
def teardown (h : Handles) : List Ev :=
  (if h.rs then [Ev.rsDestroy] else []) ++
  (if h.ns then [Ev.nsDestroy] else []) ++
  (if h.pool then [Ev.poolDestroy] else []) ++
  (if h.loop then [Ev.loopClose] else [])

/-- `main` after `parse_arg` (daemon.c:195-288), linearised: the C
code's `goto done` failure branches become the else-if chain, each
branch ending in the `done:` teardown over exactly the handles
acquired so far. Returns the process exit code and the trace of
external calls. -/
def main_run (opt : HskOptions) (env : MainEnv) : Int × List Ev :=
  if env.loop_ok = false then
    (HSK_EFAILURE, teardown ⟨false, false, false, false⟩)
  else if env.pool_alloc_ok = false then
    (HSK_ENOMEM, [Ev.poolAlloc] ++ teardown ⟨true, false, false, false⟩)
  else if env.ns_alloc_ok = false then
    (HSK_ENOMEM,
      [Ev.poolAlloc, Ev.poolSetSize opt.pool_size, Ev.nsAlloc] ++
        teardown ⟨true, true, false, false⟩)
  else if env.rs_alloc_ok = false then
    (HSK_ENOMEM,
      [Ev.poolAlloc, Ev.poolSetSize opt.pool_size, Ev.nsAlloc, Ev.nsSetIp opt.ns_ip] ++
        (if opt.identity_key then [Ev.nsSetKey] else []) ++
        [Ev.rsAlloc opt.ns_host] ++
        teardown ⟨true, true, true, false⟩)
  else if env.pool_open_rc ≠ HSK_SUCCESS then
    (env.pool_open_rc,
      [Ev.poolAlloc, Ev.poolSetSize opt.pool_size, Ev.nsAlloc, Ev.nsSetIp opt.ns_ip] ++
        (if opt.identity_key then [Ev.nsSetKey] else []) ++
        [Ev.rsAlloc opt.ns_host] ++
        (if opt.identity_key then [Ev.rsSetKey] else []) ++
        [Ev.poolOpen] ++
        teardown ⟨true, true, true, true⟩)
  else if env.ns_open_rc ≠ HSK_SUCCESS then
    (env.ns_open_rc,
      [Ev.poolAlloc, Ev.poolSetSize opt.pool_size, Ev.nsAlloc, Ev.nsSetIp opt.ns_ip] ++
        (if opt.identity_key then [Ev.nsSetKey] else []) ++
        [Ev.rsAlloc opt.ns_host] ++
        (if opt.identity_key then [Ev.rsSetKey] else []) ++
        [Ev.poolOpen] ++ [Ev.nsOpen opt.ns_host] ++
        teardown ⟨true, true, true, true⟩)
  else if env.rs_open_rc ≠ HSK_SUCCESS then
    (env.rs_open_rc,
      [Ev.poolAlloc, Ev.poolSetSize opt.pool_size, Ev.nsAlloc, Ev.nsSetIp opt.ns_ip] ++
        (if opt.identity_key then [Ev.nsSetKey] else []) ++
        [Ev.rsAlloc opt.ns_host] ++
        (if opt.identity_key then [Ev.rsSetKey] else []) ++
        [Ev.poolOpen] ++ [Ev.nsOpen opt.ns_host] ++ [Ev.rsOpen opt.rs_host] ++
        teardown ⟨true, true, true, true⟩)
  else if env.uv_run_rc ≠ 0 then
    (HSK_EFAILURE,
      [Ev.poolAlloc, Ev.poolSetSize opt.pool_size, Ev.nsAlloc, Ev.nsSetIp opt.ns_ip] ++
        (if opt.identity_key then [Ev.nsSetKey] else []) ++
        [Ev.rsAlloc opt.ns_host] ++
        (if opt.identity_key then [Ev.rsSetKey] else []) ++
        [Ev.poolOpen] ++ [Ev.nsOpen opt.ns_host] ++ [Ev.rsOpen opt.rs_host] ++ [Ev.run] ++
        teardown ⟨true, true, true, true⟩)
  else
    (HSK_SUCCESS,
      [Ev.poolAlloc, Ev.poolSetSize opt.pool_size, Ev.nsAlloc, Ev.nsSetIp opt.ns_ip] ++
        (if opt.identity_key then [Ev.nsSetKey] else []) ++
        [Ev.rsAlloc opt.ns_host] ++
        (if opt.identity_key then [Ev.rsSetKey] else []) ++
        [Ev.poolOpen] ++ [Ev.nsOpen opt.ns_host] ++ [Ev.rsOpen opt.rs_host] ++ [Ev.run] ++
        teardown ⟨true, true, true, true⟩)

/-- The full successful startup call sequence of `main`, in order:
allocations interleaved with their configuration calls, then the three
opens, then running the loop. -/
def startup_seq (opt : HskOptions) : List Ev :=
  [Ev.poolAlloc, Ev.poolSetSize opt.pool_size, Ev.nsAlloc, Ev.nsSetIp opt.ns_ip] ++
    (if opt.identity_key then [Ev.nsSetKey] else []) ++
    [Ev.rsAlloc opt.ns_host] ++
    (if opt.identity_key then [Ev.rsSetKey] else []) ++
    [Ev.poolOpen] ++ [Ev.nsOpen opt.ns_host] ++ [Ev.rsOpen opt.rs_host] ++ [Ev.run]

/-- Which handle slots end up allocated in a given environment: each
step is reached only when every earlier acquisition succeeded. -/
def allocHandles (env : MainEnv) : Handles :=
  ⟨env.loop_ok,
   env.loop_ok && env.pool_alloc_ok,
   env.loop_ok && env.pool_alloc_ok && env.ns_alloc_ok,
   env.loop_ok && env.pool_alloc_ok && env.ns_alloc_ok && env.rs_alloc_ok⟩

/-- The exit code `main` returns in a given environment. -/
def exitCode (env : MainEnv) : Int :=
  if env.loop_ok = false then HSK_EFAILURE
  else if env.pool_alloc_ok = false then HSK_ENOMEM
  else if env.ns_alloc_ok = false then HSK_ENOMEM
  else if env.rs_alloc_ok = false then HSK_ENOMEM
  else if env.pool_open_rc ≠ HSK_SUCCESS then env.pool_open_rc
  else if env.ns_open_rc ≠ HSK_SUCCESS then env.ns_open_rc
  else if env.rs_open_rc ≠ HSK_SUCCESS then env.rs_open_rc
  else if env.uv_run_rc ≠ 0 then HSK_EFAILURE
  else HSK_SUCCESS

/-- The startup calls `main` performs before reaching `done:` in a
given environment. -/
def stagePre (opt : HskOptions) (env : MainEnv) : List Ev :=
  if env.loop_ok = false then []
  else if env.pool_alloc_ok = false then [Ev.poolAlloc]
  else if env.ns_alloc_ok = false then
    [Ev.poolAlloc, Ev.poolSetSize opt.pool_size, Ev.nsAlloc]
  else if env.rs_alloc_ok = false then
    [Ev.poolAlloc, Ev.poolSetSize opt.pool_size, Ev.nsAlloc, Ev.nsSetIp opt.ns_ip] ++
      (if opt.identity_key then [Ev.nsSetKey] else []) ++
      [Ev.rsAlloc opt.ns_host]
  else if env.pool_open_rc ≠ HSK_SUCCESS then
    [Ev.poolAlloc, Ev.poolSetSize opt.pool_size, Ev.nsAlloc, Ev.nsSetIp opt.ns_ip] ++
      (if opt.identity_key then [Ev.nsSetKey] else []) ++
      [Ev.rsAlloc opt.ns_host] ++
      (if opt.identity_key then [Ev.rsSetKey] else []) ++
      [Ev.poolOpen]
  else if env.ns_open_rc ≠ HSK_SUCCESS then
    [Ev.poolAlloc, Ev.poolSetSize opt.pool_size, Ev.nsAlloc, Ev.nsSetIp opt.ns_ip] ++
      (if opt.identity_key then [Ev.nsSetKey] else []) ++
      [Ev.rsAlloc opt.ns_host] ++
      (if opt.identity_key then [Ev.rsSetKey] else []) ++
      [Ev.poolOpen] ++ [Ev.nsOpen opt.ns_host]
  else if env.rs_open_rc ≠ HSK_SUCCESS then
    [Ev.poolAlloc, Ev.poolSetSize opt.pool_size, Ev.nsAlloc, Ev.nsSetIp opt.ns_ip] ++
      (if opt.identity_key then [Ev.nsSetKey] else []) ++
      [Ev.rsAlloc opt.ns_host] ++
      (if opt.identity_key then [Ev.rsSetKey] else []) ++
      [Ev.poolOpen] ++ [Ev.nsOpen opt.ns_host] ++ [Ev.rsOpen opt.rs_host]
  else startup_seq opt

/-- Environment where every acquisition succeeds, the pool and NS opens
succeed, and the RS open fails with code 7. -/
def wEnvOpenFail : MainEnv := ⟨true, true, true, true, 0, 0, 7, 0⟩

/-- Environment where startup fully succeeds and `uv_run` returns the
nonzero code 5. -/
def wEnvLoopFail : MainEnv := ⟨true, true, true, true, 0, 0, 0, 5⟩

theorem parse_step_rs_config {st st1 : HskOptions × Bool} {a : Arg}
    (h : parse_step st a = Except.ok st1) : st1.1.rs_config = st.1.rs_config := by
  obtain ⟨o, hip⟩ := st
  obtain ⟨o1, hip1⟩ := st1
  cases a <;> simp only [parse_step] at h <;> repeat' split at h
  all_goals first
    | exact Except.noConfusion h
    | (simp only [Except.ok.injEq, Prod.mk.injEq] at h
       obtain ⟨h1, h2⟩ := h
       subst h1
       rfl)

theorem parse_step_hip {st st1 : HskOptions × Bool} {a : Arg}
    (h : parse_step st a = Except.ok st1) : st1.2 = (st.2 || isNsIpArg a) := by
  obtain ⟨o, hip⟩ := st
  obtain ⟨o1, hip1⟩ := st1
  cases a <;> simp only [parse_step] at h <;> repeat' split at h
  all_goals first
    | exact Except.noConfusion h
    | (simp only [Except.ok.injEq, Prod.mk.injEq] at h
       obtain ⟨h1, h2⟩ := h
       subst h2
       simp [isNsIpArg])

theorem parse_step_ns_ip_frame {st st1 : HskOptions × Bool} {a : Arg}
    (hna : nsIpOf a = none) (h : parse_step st a = Except.ok st1) :
    st1.1.ns_ip = st.1.ns_ip := by
  obtain ⟨o, hip⟩ := st
  obtain ⟨o1, hip1⟩ := st1
  cases a <;> simp only [nsIpOf] at hna <;> simp only [parse_step] at h <;> repeat' split at h
  all_goals first
    | exact Except.noConfusion h
    | exact Option.noConfusion hna
    | (simp only [Except.ok.injEq, Prod.mk.injEq] at h
       obtain ⟨h1, h2⟩ := h
       subst h1
       rfl)

theorem parse_step_ns_ip_set {st st1 : HskOptions × Bool} {s : String}
    (h : parse_step st (Arg.nsIp s) = Except.ok st1) :
    hsk_sa_from_string s 0 = some st1.1.ns_ip := by
  obtain ⟨o, hip⟩ := st
  obtain ⟨o1, hip1⟩ := st1
  simp only [parse_step] at h
  split at h
  · exact Except.noConfusion h
  · simp only [Except.ok.injEq, Prod.mk.injEq] at h
    obtain ⟨h1, h2⟩ := h
    subst h1
    simpa using ‹hsk_sa_from_string s 0 = some _›

theorem parse_step_configVal {st st1 : HskOptions × Bool} {a : Arg}
    (h : parse_step st a = Except.ok st1) :
    configVal st1.1 = (cfgOf a).or (configVal st.1) := by
  obtain ⟨o, hip⟩ := st
  obtain ⟨o1, hip1⟩ := st1
  cases a <;> simp only [parse_step] at h <;> repeat' split at h
  all_goals first
    | exact Except.noConfusion h
    | (simp only [Except.ok.injEq, Prod.mk.injEq] at h
       obtain ⟨h1, h2⟩ := h
       subst h1
       simp [configVal, cfgOf, Option.or])

theorem parse_loop_rs_config : ∀ (args : List Arg) (st st1 : HskOptions × Bool),
    parse_loop args st = Except.ok st1 → st1.1.rs_config = st.1.rs_config
  | [], st, st1, h => by
    simp only [parse_loop, Except.ok.injEq] at h
    rw [← h]
  | a :: rest, st, st1, h => by
    simp only [parse_loop] at h
    cases hs : parse_step st a with
    | error e => rw [hs] at h; exact Except.noConfusion h
    | ok st2 =>
      rw [hs] at h
      exact (parse_loop_rs_config rest st2 st1 h).trans (parse_step_rs_config hs)

theorem parse_loop_hip : ∀ (args : List Arg) (st st1 : HskOptions × Bool),
    parse_loop args st = Except.ok st1 → st1.2 = (st.2 || args.any isNsIpArg)
  | [], st, st1, h => by
    simp only [parse_loop, Except.ok.injEq] at h
    rw [← h]
    simp
  | a :: rest, st, st1, h => by
    simp only [parse_loop] at h
    cases hs : parse_step st a with
    | error e => rw [hs] at h; exact Except.noConfusion h
    | ok st2 =>
      rw [hs] at h
      have h2 := parse_loop_hip rest st2 st1 h
      rw [h2, parse_step_hip hs]
      simp [Bool.or_assoc, Bool.or_comm]

theorem parse_loop_ns_ip : ∀ (args : List Arg) (st st1 : HskOptions × Bool),
    parse_loop args st = Except.ok st1 →
    (lastNsIp args = none → st1.1.ns_ip = st.1.ns_ip) ∧
    (∀ s, lastNsIp args = some s → hsk_sa_from_string s 0 = some st1.1.ns_ip)
  | [], st, st1, h => by
    simp only [parse_loop, Except.ok.injEq] at h
    rw [← h]
    simp [lastNsIp]
  | a :: rest, st, st1, h => by
    simp only [parse_loop] at h
    cases hs : parse_step st a with
    | error e => rw [hs] at h; exact Except.noConfusion h
    | ok st2 =>
      rw [hs] at h
      have ih := parse_loop_ns_ip rest st2 st1 h
      constructor
      · intro hnone
        simp only [lastNsIp, Option.or_eq_none] at hnone
        obtain ⟨hr, ha⟩ := hnone
        exact (ih.1 hr).trans (parse_step_ns_ip_frame ha hs)
      · intro s hsome
        simp only [lastNsIp] at hsome
        cases hr : lastNsIp rest with
        | some t =>
          rw [hr] at hsome
          simp only [Option.or, Option.some.injEq] at hsome
          subst hsome
          exact ih.2 t hr
        | none =>
          rw [hr] at hsome
          simp only [Option.or] at hsome
          cases a <;> simp only [nsIpOf] at hsome
          case nsIp u =>
            simp only [Option.some.injEq] at hsome
            subst hsome
            rw [ih.1 hr]
            exact parse_step_ns_ip_set hs
          all_goals exact Option.noConfusion hsome

theorem parse_loop_configVal : ∀ (args : List Arg) (st st1 : HskOptions × Bool),
    parse_loop args st = Except.ok st1 →
    configVal st1.1 = (lastCfg args).or (configVal st.1)
  | [], st, st1, h => by
    simp only [parse_loop, Except.ok.injEq] at h
    rw [← h]
    simp [lastCfg]
  | a :: rest, st, st1, h => by
    simp only [parse_loop] at h
    cases hs : parse_step st a with
    | error e => rw [hs] at h; exact Except.noConfusion h
    | ok st2 =>
      rw [hs] at h
      have ih := parse_loop_configVal rest st2 st1 h
      rw [ih, parse_step_configVal hs]
      simp only [lastCfg, Option.or_assoc]

theorem main_run_eq (opt : HskOptions) (env : MainEnv) :
    main_run opt env = (exitCode env, stagePre opt env ++ teardown (allocHandles env)) := by
  obtain ⟨l, p, n, r, po, no, ro, ur⟩ := env
  cases l <;> cases p <;> cases n <;> cases r <;>
    by_cases hpo : po ≠ HSK_SUCCESS <;> by_cases hno : no ≠ HSK_SUCCESS <;>
    by_cases hro : ro ≠ HSK_SUCCESS <;> by_cases hur : ur ≠ 0 <;>
    simp [main_run, exitCode, stagePre, allocHandles, startup_seq, teardown,
          hpo, hno, hro, hur]

theorem stagePre_no_destroy (opt : HskOptions) (env : MainEnv) :
    (stagePre opt env).countP isDestroy = 0 := by
  unfold stagePre
  split_ifs <;> cases hk : opt.identity_key <;>
    simp [startup_seq, hk, isDestroy]

theorem stagePre_filter (opt : HskOptions) (env : MainEnv) :
    (stagePre opt env).filter (fun e => !(isDestroy e)) = stagePre opt env := by
  unfold stagePre
  split_ifs <;> cases hk : opt.identity_key <;>
    simp [startup_seq, hk, isDestroy]

theorem teardown_filter (h : Handles) :
    (teardown h).filter (fun e => !(isDestroy e)) = [] := by
  obtain ⟨a, b, c, d⟩ := h
  cases a <;> cases b <;> cases c <;> cases d <;> simp [teardown, isDestroy]

theorem stagePre_front (opt : HskOptions) (env : MainEnv) :
    ∃ rest, startup_seq opt = stagePre opt env ++ rest := by
  unfold stagePre
  split_ifs <;>
    exact ⟨_, by simp [startup_seq, *]; try rfl⟩

theorem hexBytes_len : ∀ (cs : List Char) (bs : List Nat),
    hexBytes cs = some bs → 2 * bs.length = cs.length
  | [], bs, h => by
    simp only [hexBytes, Option.some.injEq] at h
    subst h
    rfl
  | [_], bs, h => by
    simp only [hexBytes] at h
    exact Option.noConfusion h
  | c1 :: c2 :: rest, bs, h => by
    simp only [hexBytes] at h
    split at h
    · simp only [Option.some.injEq] at h
      subst h
      have ih := hexBytes_len rest _ (by assumption)
      simp only [List.length_cons]
      omega
    · exact Option.noConfusion h

theorem parse_step_poolSize_eq (o : HskOptions) (hip : Bool) (s : String) :
    parse_step (o, hip) (Arg.poolSize s) =
      (if 1 ≤ atoi s ∧ atoi s ≤ 1000
       then Except.ok ({ o with pool_size := atoi s }, hip)
       else Except.error ParseExit.usage1) := by
  simp only [parse_step]
  split_ifs with h1 h2 h3
  · exact absurd h1 (by omega)
  · rfl
  · rfl
  · exact (h3 (by omega)).elim

theorem parse_arg_ok (args : List Arg) (extra : Bool) (o : HskOptions)
    (h : parse_arg args extra = Except.ok o) :
    ∃ o1 hip, parse_loop args (hsk_options_init, false) = Except.ok (o1, hip) ∧
      extra = false ∧ hip = args.any isNsIpArg ∧
      o = (if hip then o1 else { o1 with ns_ip := hsk_sa_copy o1.ns_host }) := by
  unfold parse_arg at h
  cases hl : parse_loop args (hsk_options_init, false) with
  | error e => rw [hl] at h; exact Except.noConfusion h
  | ok st =>
    obtain ⟨o1, hip⟩ := st
    rw [hl] at h
    cases extra with
    | true => simp at h
    | false =>
      simp only [Bool.false_eq_true, if_false, Except.ok.injEq] at h
      refine ⟨o1, hip, rfl, rfl, ?_, h.symm⟩
      simpa using parse_loop_hip args _ _ hl

theorem lastNsIp_none_iff : ∀ args : List Arg,
    lastNsIp args = none ↔ args.any isNsIpArg = false
  | [] => by simp [lastNsIp]
  | a :: rest => by
    simp only [lastNsIp, List.any_cons, Option.or_eq_none, lastNsIp_none_iff rest]
    cases a <;> simp [nsIpOf, isNsIpArg]

/-- C1: at every exit of `main` — each failure branch and the normal
stop — the trace ends with the teardown suffix destroying exactly the
allocated handles in reverse allocation order (RecursiveServer, then
AuthoritativeServer, then Pool, then the loop closed last); a slot
whose acquisition was never reached or failed contributes no destroy
event, and no destroy event occurs outside this suffix, so each
allocated handle is destroyed exactly once. -/
theorem teardown_reverse_exactly_once (opt : HskOptions) (env : MainEnv) :
    ∃ front, front.countP isDestroy = 0 ∧
      (main_run opt env).2 = front ++
        ((if env.loop_ok && env.pool_alloc_ok && env.ns_alloc_ok && env.rs_alloc_ok
          then [Ev.rsDestroy] else []) ++
         (if env.loop_ok && env.pool_alloc_ok && env.ns_alloc_ok
          then [Ev.nsDestroy] else []) ++
         (if env.loop_ok && env.pool_alloc_ok then [Ev.poolDestroy] else []) ++
         (if env.loop_ok then [Ev.loopClose] else [])) := by
  refine ⟨stagePre opt env, stagePre_no_destroy opt env, ?_⟩
  rw [main_run_eq]
  simp only [teardown, allocHandles]

/-- C2: if any of the three open calls returns a nonzero code (with all
allocations having succeeded, as they precede the opens), `main`
performs the full reverse-order teardown of all four acquired handles
and returns the first failing open call's code unchanged. -/
theorem open_failure_code_unchanged (opt : HskOptions) (env : MainEnv)
    (hl : env.loop_ok = true) (hp : env.pool_alloc_ok = true)
    (hn : env.ns_alloc_ok = true) (hr : env.rs_alloc_ok = true)
    (hfail : ¬(env.pool_open_rc = HSK_SUCCESS ∧ env.ns_open_rc = HSK_SUCCESS ∧
               env.rs_open_rc = HSK_SUCCESS)) :
    ∃ front, front.countP isDestroy = 0 ∧
      main_run opt env =
        ((if env.pool_open_rc ≠ HSK_SUCCESS then env.pool_open_rc
          else if env.ns_open_rc ≠ HSK_SUCCESS then env.ns_open_rc
          else env.rs_open_rc),
         front ++ [Ev.rsDestroy, Ev.nsDestroy, Ev.poolDestroy, Ev.loopClose]) := by
  refine ⟨stagePre opt env, stagePre_no_destroy opt env, ?_⟩
  rw [main_run_eq]
  obtain ⟨l, p, n, r, po, no, ro, ur⟩ := env
  simp only at hl hp hn hr hfail ⊢
  subst hl hp hn hr
  by_cases hpo : po = HSK_SUCCESS <;> by_cases hno : no = HSK_SUCCESS <;>
    by_cases hro : ro = HSK_SUCCESS <;>
    (simp [exitCode, allocHandles, teardown, hpo, hno, hro]; try tauto)

/-- C2 witness: concrete run where the RecursiveServer open fails with
code 7 — the exit code is 7 and teardown destroys all four handles. -/
theorem open_failure_code_unchanged_witness :
    ∃ front, front.countP isDestroy = 0 ∧
      main_run hsk_options_init wEnvOpenFail =
        ((if wEnvOpenFail.pool_open_rc ≠ HSK_SUCCESS then wEnvOpenFail.pool_open_rc
          else if wEnvOpenFail.ns_open_rc ≠ HSK_SUCCESS then wEnvOpenFail.ns_open_rc
          else wEnvOpenFail.rs_open_rc),
         front ++ [Ev.rsDestroy, Ev.nsDestroy, Ev.poolDestroy, Ev.loopClose]) :=
  open_failure_code_unchanged hsk_options_init wEnvOpenFail rfl rfl rfl rfl (by decide)

/-- C3: after `parse_arg` returns successfully, if no `-i`/`--ns-ip`
flag was given the public IP `ns_ip` equals the NS bind address
`ns_host` exactly (host and port); if `-i` was given, `ns_ip` equals
the address parsed from the (last) `-i` argument, independent of the
NS bind address. -/
theorem public_ip_defaults_to_ns_host (args : List Arg) (extra : Bool) (o : HskOptions)
    (h : parse_arg args extra = Except.ok o) :
    (lastNsIp args = none → o.ns_ip = o.ns_host) ∧
    (lastNsIp args ≠ none →
      hsk_sa_from_string ((lastNsIp args).getD "") 0 = some o.ns_ip) := by
  obtain ⟨o1, hip, hl, -, hhip, ho⟩ := parse_arg_ok args extra o h
  have hns := parse_loop_ns_ip args _ _ hl
  constructor
  · intro hnone
    have hany : args.any isNsIpArg = false := (lastNsIp_none_iff args).mp hnone
    rw [hany] at hhip
    subst hhip
    rw [ho]
    simp [hsk_sa_copy]
  · intro hne
    cases hs : lastNsIp args with
    | none => exact absurd hs hne
    | some s =>
      have hany : args.any isNsIpArg = true := by
        cases hb : args.any isNsIpArg
        · exact absurd ((lastNsIp_none_iff args).mpr hb) (by simp [hs])
        · rfl
      rw [hany] at hhip
      subst hhip
      rw [ho]
      simpa using hns.2 s hs

/-- C3 witness: parsing `-i 9.9.9.9` succeeds and the resulting public
IP is the parsed `-i` value. -/
theorem public_ip_defaults_to_ns_host_witness :
    hsk_sa_from_string ((lastNsIp [Arg.nsIp "9.9.9.9"]).getD "") 0 =
      some ({ hsk_options_init with ns_ip := ⟨"9.9.9.9", 0⟩ } : HskOptions).ns_ip :=
  (public_ip_defaults_to_ns_host [Arg.nsIp "9.9.9.9"] false _ rfl).2 (by decide)

/-- C4: the `-p`/`--pool-size` handler accepts the argument — setting
`pool_size` to its converted value — exactly when that value is in
`[1, 1000]`; every other value yields `help(1)`, i.e. usage printed
and exit status 1. -/
theorem pool_size_accepted_iff_in_range (o : HskOptions) (hip : Bool) (s : String) :
    parse_step (o, hip) (Arg.poolSize s) =
      (if 1 ≤ atoi s ∧ atoi s ≤ 1000
       then Except.ok ({ o with pool_size := atoi s }, hip)
       else Except.error ParseExit.usage1) :=
  parse_step_poolSize_eq o hip s

/-- C5: the `-k`/`--identity-key` handler accepts the argument —
storing the decoded bytes and setting the `identity_key` pointer —
exactly when the argument is a hex string decoding to exactly 32
bytes; otherwise it yields `help(1)` (usage printed, exit status 1). -/
theorem identity_key_accepted_iff_32_bytes (o : HskOptions) (hip : Bool) (s : String) :
    parse_step (o, hip) (Arg.identityKey s) =
      (match hsk_hex_decode s with
       | some k =>
         if k.length = 32
         then Except.ok ({ o with _identity_key := k, identity_key := true }, hip)
         else Except.error ParseExit.usage1
       | none => Except.error ParseExit.usage1) := by
  cases hd : hsk_hex_decode s with
  | none => simp [parse_step, hd]
  | some k =>
    have hlen : 2 * k.length = s.data.length := hexBytes_len s.data k hd
    have hsize : hsk_hex_decode_size s = k.length := by
      have hsl : s.length = s.data.length := rfl
      unfold hsk_hex_decode_size
      omega
    by_cases h32 : k.length = 32 <;> simp [parse_step, hd, hsize, h32]

/-- C6: on every run, the startup calls of `main` (everything except
the teardown suffix) form a front segment of the fixed sequence
`startup_seq`: Pool allocated before AuthoritativeServer before
RecursiveServer, every configuration call (pool size, public IP,
identity keys) before any open, the opens in order Pool,
AuthoritativeServer, RecursiveServer, and the RecursiveServer
allocated bound to the NS bind address `ns_host`. -/
theorem startup_dependency_order (opt : HskOptions) (env : MainEnv) :
    ∃ rest, startup_seq opt =
      ((main_run opt env).2.filter (fun e => !(isDestroy e))) ++ rest := by
  obtain ⟨rest, hrest⟩ := stagePre_front opt env
  refine ⟨rest, ?_⟩
  rw [main_run_eq]
  simp only [List.filter_append]
  rw [stagePre_filter, teardown_filter]
  simpa using hrest

/-- C7: when startup fully succeeds and `uv_run` returns a nonzero
code, `main` performs the full reverse-order teardown and returns the
generic failure code `HSK_EFAILURE` — not the scheduler's own return
value, which is arbitrary nonzero here. -/
theorem loop_error_generic_code (opt : HskOptions) (env : MainEnv)
    (hl : env.loop_ok = true) (hp : env.pool_alloc_ok = true)
    (hn : env.ns_alloc_ok = true) (hr : env.rs_alloc_ok = true)
    (hpo : env.pool_open_rc = HSK_SUCCESS) (hno : env.ns_open_rc = HSK_SUCCESS)
    (hro : env.rs_open_rc = HSK_SUCCESS) (hur : env.uv_run_rc ≠ 0) :
    main_run opt env =
      (HSK_EFAILURE,
       startup_seq opt ++ [Ev.rsDestroy, Ev.nsDestroy, Ev.poolDestroy, Ev.loopClose]) := by
  rw [main_run_eq]
  obtain ⟨l, p, n, r, po, no, ro, ur⟩ := env
  simp only at hl hp hn hr hpo hno hro hur ⊢
  subst hl hp hn hr hpo hno hro
  simp [exitCode, stagePre, allocHandles, teardown, hur]

/-- C7 witness: concrete run where `uv_run` returns 5 — the exit code
is the generic failure code, not 5. -/
theorem loop_error_generic_code_witness :
    main_run hsk_options_init wEnvLoopFail =
      (HSK_EFAILURE,
       startup_seq hsk_options_init ++
         [Ev.rsDestroy, Ev.nsDestroy, Ev.poolDestroy, Ev.loopClose]) :=
  loop_error_generic_code hsk_options_init wEnvLoopFail rfl rfl rfl rfl rfl rfl rfl
    (by decide)

/-- C8: `-c`/`--config` and `-u`/`--rs-config` both write the single
active config-path field: after a successful parse, the dereferenced
config path equals the argument of the last occurrence of either flag
(and is unset when neither appears), the earlier occurrence being
silently discarded. -/
theorem config_path_last_wins (args : List Arg) (extra : Bool) (o : HskOptions)
    (h : parse_arg args extra = Except.ok o) :
    configVal o = lastCfg args := by
  obtain ⟨o1, hip, hl, -, -, ho⟩ := parse_arg_ok args extra o h
  have hc := parse_loop_configVal args _ _ hl
  have hinit : configVal hsk_options_init = none := rfl
  rw [hinit, Option.or_none] at hc
  have hco : configVal o = configVal o1 := by
    rw [ho]
    cases hip <;> simp [configVal]
  rw [hco, hc]

/-- C8 witness: with `-c a -u b` the final config path is `b`. -/
theorem config_path_last_wins_witness :
    configVal { hsk_options_init with
                  _config := "a"
                  _rs_config := "b"
                  config := ConfigPtr.rsCfgBuf
                  ns_ip := hsk_options_init.ns_host } =
      lastCfg [Arg.config "a", Arg.rsConfig "b"] :=
  config_path_last_wins [Arg.config "a", Arg.rsConfig "b"] false _ rfl

/-- C9: for every argument list on which `parse_arg` returns, the
dedicated `rs_config` pointer field of the options record is still
NULL: the `-u`/`--rs-config` handler writes the shared `config` field
(pointing it at the `_rs_config` buffer) and no handler ever assigns
`rs_config` itself. -/
theorem rs_config_field_stays_null (args : List Arg) (extra : Bool) (o : HskOptions)
    (h : parse_arg args extra = Except.ok o) :
    o.rs_config = ConfigPtr.null := by
  obtain ⟨o1, hip, hl, -, -, ho⟩ := parse_arg_ok args extra o h
  have hr := parse_loop_rs_config args _ _ hl
  have ho1 : o.rs_config = o1.rs_config := by
    rw [ho]
    cases hip <;> rfl
  rw [ho1, hr]
  rfl

/-- C9 witness: after parsing `-u b`, the `rs_config` field is NULL
even though the `_rs_config` buffer holds the path. -/
theorem rs_config_field_stays_null_witness :
    ({ hsk_options_init with
         _rs_config := "b"
         config := ConfigPtr.rsCfgBuf
         ns_ip := hsk_options_init.ns_host } : HskOptions).rs_config = ConfigPtr.null :=
  rs_config_field_stays_null [Arg.rsConfig "b"] false _ rfl

/-- C10: pool-size acceptance depends only on the `atoi` conversion of
the argument: `"10abc"` converts to 10 and is accepted with pool size
10 despite the trailing letters, `"abc"` converts to 0 and is rejected
as a usage error, and in general the handler's outcome is determined
by whether `atoi` of the argument lies in `[1, 1000]`. -/
theorem pool_size_depends_only_on_atoi (o : HskOptions) (hip : Bool) :
    atoi "10abc" = 10 ∧
    parse_step (o, hip) (Arg.poolSize "10abc") =
      Except.ok ({ o with pool_size := 10 }, hip) ∧
    atoi "abc" = 0 ∧
    parse_step (o, hip) (Arg.poolSize "abc") = Except.error ParseExit.usage1 ∧
    ∀ s : String, parse_step (o, hip) (Arg.poolSize s) =
      (if 1 ≤ atoi s ∧ atoi s ≤ 1000
       then Except.ok ({ o with pool_size := atoi s }, hip)
       else Except.error ParseExit.usage1) := by
  have h10 : atoi "10abc" = (10 : Int) := by decide
  have h0 : atoi "abc" = (0 : Int) := by decide
  refine ⟨h10, ?_, h0, ?_, fun s => parse_step_poolSize_eq o hip s⟩
  · rw [parse_step_poolSize_eq, h10, if_pos (by norm_num)]
  · rw [parse_step_poolSize_eq, h0, if_neg (by norm_num)]
